import Mathlib

/-!
A shallow embedding of the conversational-agent service.

Embedded components, each translated from the repository source:
* the agent control loop `AgentExecutor.invoke` (`langchain/agent.py`);
* the conversation service `generate_response` and the `/generate` route
  handler `generate_get` (`langchain/agent.py`, `langchain/main.py`);
* the tools `calculate`, `get_time` and `db_save_preference`
  (`langchain/tools/tools.py`);
* the SSE streaming generator `chatbot`
  (`streamingChatbot/backend/agent/agent.py`).

External collaborators are modelled as explicit parameters: the completion
client is a function from the message sequence to a response (or, where the
source can observe its failure, an `Except`), the document store is a list
of records or an `Except`-valued save attempt, and the Python `eval`
builtin is a parameter of `calculate`.  Machine behaviour the source never
branches on (timestamps, printing) is threaded through as opaque strings.
-/

/-- A tool invocation request as produced by the completion client.  In the
source each element of `response.tool_calls` is a dict read with
`tool_call.get("name", "")`, `tool_call.get("args", \x7b\x7d)` and
`tool_call.get("id", "")`; the argument mapping is opaque to the loop and is
modelled as a string. -/
structure ToolCall where
  name : String
  args : String
  id : String
  deriving DecidableEq

/-- An assistant turn returned by the completion client: its text `content`
and the ordered list of requested tool invocations (`response.tool_calls`,
empty when the model produced a final answer). -/
structure LLMResponse where
  content : String
  tool_calls : List ToolCall
  deriving DecidableEq

/-- A turn in the message sequence owned by the control loop:
`HumanMessage`, the assistant turn (`AIMessage` carrying the whole
response), or a `ToolMessage` with its correlating `tool_call_id`. -/
inductive Message where
  | human (content : String)
  | ai (response : LLMResponse)
  | tool (content : String) (tool_call_id : String)
  deriving DecidableEq

/-- Bool test: is this turn a tool-result turn (`ToolMessage`)? -/
def Message.isToolResult : Message → Bool
  | Message.tool _ _ => true
  | _ => false

/-- The `tool_call_id` carried by a tool-result turn, `none` for other
turns. -/
def Message.toolCallIdOf : Message → Option String
  | Message.tool _ tid => some tid
  | _ => none

/-- `self.max_iterations = 10` from `AgentExecutor.__init__`. -/
def max_iterations : Nat := 10

/-- The fixed fallback answer returned after the loop exhausts its
iteration budget (`langchain/agent.py` line 121). -/
def maxIterationsMessage : String :=
  "Maximum iterations reached. Please try a simpler question."

/-- The tool-dispatch body of one loop iteration (`langchain/agent.py`
lines 96-114).  `tm` is the registry `self.tool_map`, giving for a
registered name the tool as a function from its argument mapping to either
a result string or a raised exception (`Except.error`).  For each request
in order: if the name is registered, invoke it and append a `ToolMessage`
with the result, or with `"Error executing <name>: <exception>"` when the
tool raises; if the name is not registered the source has no `else`
branch, so nothing is appended for that request. -/
def execToolCalls (tm : String → Option (String → Except String String)) :
    List ToolCall → List Message
  | [] => []
  | tc :: rest =>
    match tm tc.name with
    | some f =>
      (match f tc.args with
       | Except.ok r => Message.tool r tc.id
       | Except.error e =>
         Message.tool ("Error executing " ++ tc.name ++ ": " ++ e) tc.id)
        :: execToolCalls tm rest
    | none => execToolCalls tm rest

/-- The observable outcome of one `AgentExecutor.invoke` run: the message
sequences handed to the completion client at each call, in call order, and
the returned `output` value. -/
structure InvokeTrace where
  sentMessages : List (List Message)
  output : String
  deriving DecidableEq

/-- The `while iteration < self.max_iterations` loop of
`AgentExecutor.invoke` (`langchain/agent.py` lines 85-121), with the
remaining iteration budget as fuel.  `llm` is
`self.llm_with_tools.invoke`.  Each iteration sends the current sequence,
appends the assistant turn, and either returns its content (no tool
calls) or appends all tool results and continues; when the fuel is
exhausted the fixed fallback message is returned. -/
def invokeAux (llm : List Message → LLMResponse)
    (tm : String → Option (String → Except String String)) :
    Nat → List Message → InvokeTrace
  | 0, _ => ⟨[], maxIterationsMessage⟩
  | fuel + 1, messages =>
    if (llm messages).tool_calls = [] then
      ⟨[messages], (llm messages).content⟩
    else
      let next := messages ++ [Message.ai (llm messages)] ++
        execToolCalls tm (llm messages).tool_calls
      ⟨messages :: (invokeAux llm tm fuel next).sentMessages,
       (invokeAux llm tm fuel next).output⟩

/-- `AgentExecutor.invoke` (`langchain/agent.py` lines 81-121): the initial
sequence is one `HumanMessage` holding the system prompt and the user
input, then the bounded loop runs.  The system prompt text does not affect
the control flow and is a parameter here. -/
def invoke (llm : List Message → LLMResponse)
    (tm : String → Option (String → Except String String))
    (system_prompt input : String) : InvokeTrace :=
  invokeAux llm tm max_iterations
    [Message.human (system_prompt ++ "\n\nUser: " ++ input)]

/-- An empty tool registry: no name is registered. -/
def tmNone : String → Option (String → Except String String) := fun _ => none

/-- A completion client that requests a tool invocation on every call;
used to drive the loop to its iteration budget. -/
def llmAllTools : List Message → LLMResponse :=
  fun _ => ⟨"", [⟨"web_search", "", "call_0"⟩]⟩

/-- A completion client whose first turn requests a tool that is not in
the registry and whose second turn is a final answer. -/
def llmUnknownTool : List Message → LLMResponse :=
  fun messages =>
    if messages.length ≤ 1 then ⟨"", [⟨"nonexistent_tool", "", "call_1"⟩]⟩
    else ⟨"done", []⟩

lemma invokeAux_length (llm : List Message → LLMResponse)
    (tm : String → Option (String → Except String String)) :
    ∀ (fuel : Nat) (messages : List Message),
      (invokeAux llm tm fuel messages).sentMessages.length ≤ fuel := by
  intro fuel
  induction fuel with
  | zero => intro messages; simp [invokeAux]
  | succ f ih =>
    intro messages
    by_cases hc : (llm messages).tool_calls = []
    · simp [invokeAux, hc]
    · simp only [invokeAux, if_neg hc, List.length_cons]
      exact Nat.succ_le_succ (ih _)

lemma invokeAux_exhaust (llm : List Message → LLMResponse)
    (tm : String → Option (String → Except String String)) :
    ∀ (fuel : Nat) (messages : List Message),
      (∀ prev ∈ (invokeAux llm tm fuel messages).sentMessages,
        (llm prev).tool_calls ≠ []) →
      (invokeAux llm tm fuel messages).output = maxIterationsMessage ∧
      (invokeAux llm tm fuel messages).sentMessages.length = fuel := by
  intro fuel
  induction fuel with
  | zero => intro messages _; exact ⟨rfl, rfl⟩
  | succ f ih =>
    intro messages h
    by_cases hc : (llm messages).tool_calls = []
    · exfalso
      apply h messages _ hc
      simp [invokeAux, hc]
    · have h2 : ∀ prev ∈ (invokeAux llm tm f
          (messages ++ [Message.ai (llm messages)] ++
            execToolCalls tm (llm messages).tool_calls)).sentMessages,
          (llm prev).tool_calls ≠ [] := by
        intro p hp
        apply h
        simp only [invokeAux, if_neg hc, List.mem_cons]
        exact Or.inr hp
      refine ⟨?_, ?_⟩
      · simp only [invokeAux, if_neg hc]
        exact (ih _ h2).1
      · simp only [invokeAux, if_neg hc, List.length_cons, (ih _ h2).2]

lemma invokeAux_head (llm : List Message → LLMResponse)
    (tm : String → Option (String → Except String String))
    (fuel : Nat) (messages : List Message) :
    (invokeAux llm tm (fuel + 1) messages).sentMessages.head? =
      some messages := by
  by_cases hc : (llm messages).tool_calls = [] <;> simp [invokeAux, hc]

lemma invokeAux_chain (llm : List Message → LLMResponse)
    (tm : String → Option (String → Except String String)) :
    ∀ (fuel : Nat) (messages : List Message),
      List.Chain' (fun prev next =>
          next = prev ++ [Message.ai (llm prev)] ++
            execToolCalls tm (llm prev).tool_calls)
        (invokeAux llm tm fuel messages).sentMessages := by
  intro fuel
  induction fuel with
  | zero => intro messages; simp [invokeAux]
  | succ f ih =>
    intro messages
    by_cases hc : (llm messages).tool_calls = []
    · simp [invokeAux, hc]
    · simp only [invokeAux, if_neg hc]
      rw [List.chain'_cons']
      refine ⟨?_, ih _⟩
      intro b hb
      cases f with
      | zero => simp [invokeAux] at hb
      | succ g =>
        rw [invokeAux_head] at hb
        simp only [Option.mem_def, Option.some.injEq] at hb
        subst hb
        rfl

lemma execToolCalls_ids (tm : String → Option (String → Except String String)) :
    ∀ calls : List ToolCall,
      (execToolCalls tm calls).filterMap Message.toolCallIdOf =
        (calls.filter (fun c => (tm c.name).isSome)).map ToolCall.id := by
  intro calls
  induction calls with
  | nil => rfl
  | cons tc rest ih =>
    cases htc : tm tc.name with
    | none => simp [execToolCalls, htc, ih]
    | some f =>
      cases hf : f tc.args with
      | ok r => simp [execToolCalls, htc, hf, Message.toolCallIdOf, ih]
      | error e => simp [execToolCalls, htc, hf, Message.toolCallIdOf, ih]

lemma execToolCalls_unknown
    (tm : String → Option (String → Except String String)) :
    ∀ calls : List ToolCall, (∀ c ∈ calls, tm c.name = none) →
      execToolCalls tm calls = [] := by
  intro calls
  induction calls with
  | nil => intro _; rfl
  | cons tc rest ih =>
    intro h
    have htc := h tc (List.mem_cons_self tc rest)
    simp only [execToolCalls, htc]
    exact ih (fun c hc => h c (List.mem_cons_of_mem tc hc))

/-- C1: for every completion client, tool registry and input, the control
loop `AgentExecutor.invoke` makes at most `max_iterations` (10) completion
client calls, and if every assistant turn received in the run carries at
least one tool call (so the budget is exhausted without a tool-free turn),
it returns the fixed maximum-iterations fallback message as a normal
result — the function is total, there is no error outcome. -/
theorem agent_c1 (llm : List Message → LLMResponse)
    (tm : String → Option (String → Except String String))
    (sp input : String) :
    (invoke llm tm sp input).sentMessages.length ≤ max_iterations
    ∧ ((∀ prev ∈ (invoke llm tm sp input).sentMessages,
          (llm prev).tool_calls ≠ []) →
        (invoke llm tm sp input).output = maxIterationsMessage
        ∧ (invoke llm tm sp input).sentMessages.length = max_iterations) :=
  ⟨invokeAux_length llm tm max_iterations _,
   fun h => invokeAux_exhaust llm tm max_iterations _ h⟩

/-- C1 witness: with a completion client that always requests a tool, the
loop returns the fallback message after exactly 10 calls. -/
theorem agent_c1_witness :
    (invoke llmAllTools tmNone "s" "q").output = maxIterationsMessage
    ∧ (invoke llmAllTools tmNone "s" "q").sentMessages.length =
        max_iterations :=
  (agent_c1 llmAllTools tmNone "s" "q").2
    (fun _ _ => List.cons_ne_nil _ _)

/-- C2 counterexample: a concrete run in which the first assistant turn
requests the unregistered tool `nonexistent_tool`.  The message sequence
sent at the second completion client call — which by construction contains
everything the loop appended during the first iteration — holds only the
initial human turn and the assistant turn: no tool-result turn at all was
appended, in particular none carrying an unknown-tool error correlated via
`call_1`.  The loop did continue (there is a second call) and returned
normally. -/
theorem agent_c2_counterexample :
    (invoke llmUnknownTool tmNone "s" "q").sentMessages.getD 1 [] =
      [Message.human "s\n\nUser: q",
       Message.ai (LLMResponse.mk "" [ToolCall.mk "nonexistent_tool" "" "call_1"])]
    ∧ ((invoke llmUnknownTool tmNone "s" "q").sentMessages.getD 1 []).countP
        Message.isToolResult = 0
    ∧ (invoke llmUnknownTool tmNone "s" "q").sentMessages.length = 2
    ∧ (invoke llmUnknownTool tmNone "s" "q").output = "done" := by
  decide

/-- C2 amended: for an assistant turn whose tool invocation requests all
name unregistered tools, the control loop appends no tool-result turn at
all for those requests (the source has no `else` branch for an unknown
name); it does not throw, and it continues to the next iteration with
exactly the assistant turn appended to the sequence. -/
theorem agent_c2_amended (llm : List Message → LLMResponse)
    (tm : String → Option (String → Except String String))
    (fuel : Nat) (messages : List Message)
    (h1 : (llm messages).tool_calls ≠ [])
    (h2 : ∀ c ∈ (llm messages).tool_calls, tm c.name = none) :
    execToolCalls tm (llm messages).tool_calls = []
    ∧ invokeAux llm tm (fuel + 1) messages =
        ⟨messages :: (invokeAux llm tm fuel
            (messages ++ [Message.ai (llm messages)])).sentMessages,
         (invokeAux llm tm fuel
            (messages ++ [Message.ai (llm messages)])).output⟩ := by
  have hexec := execToolCalls_unknown tm (llm messages).tool_calls h2
  refine ⟨hexec, ?_⟩
  simp only [invokeAux, if_neg h1, hexec, List.append_nil]

/-- C2 amended witness: the concrete unknown-tool run from the
counterexample, one step of the loop. -/
theorem agent_c2_amended_witness :
    execToolCalls tmNone (llmUnknownTool [Message.human "x"]).tool_calls = []
    ∧ invokeAux llmUnknownTool tmNone 3 [Message.human "x"] =
        ⟨[Message.human "x"] :: (invokeAux llmUnknownTool tmNone 2
            ([Message.human "x"] ++
              [Message.ai (llmUnknownTool [Message.human "x"])])).sentMessages,
         (invokeAux llmUnknownTool tmNone 2
            ([Message.human "x"] ++
              [Message.ai (llmUnknownTool [Message.human "x"])])).output⟩ :=
  agent_c2_amended llmUnknownTool tmNone 2 [Message.human "x"]
    (by decide) (fun _ _ => rfl)

/-- C6: within one control-loop iteration the tool-result turns are
appended in the order of the originating requests, and they are all in
place before the next completion client call.  First conjunct: along any
run, each message sequence sent to the client is the previous one followed
by the assistant turn and then the whole block of that turn resulting tool
results — so every result of an iteration precedes the next call.  Second
conjunct: the `tool_call_id` values of the appended tool-result turns are
exactly the ids of the requests whose names are registered, in request
order (so with two or more registered requests the results keep their
order). -/
theorem agent_c6 (llm : List Message → LLMResponse)
    (tm : String → Option (String → Except String String))
    (sp input : String) :
    List.Chain' (fun prev next =>
        next = prev ++ [Message.ai (llm prev)] ++
          execToolCalls tm (llm prev).tool_calls)
      (invoke llm tm sp input).sentMessages
    ∧ ∀ calls : List ToolCall,
        (execToolCalls tm calls).filterMap Message.toolCallIdOf =
          (calls.filter (fun c => (tm c.name).isSome)).map ToolCall.id :=
  ⟨invokeAux_chain llm tm max_iterations _, execToolCalls_ids tm⟩

/-- The allowed character set of the `calculate` tool
(`langchain/tools/tools.py` line 214): `"0123456789+-*<slash>.() "`. -/
def allowedCalcChars : List Char := "0123456789+-*/.() ".toList

/-- The `calculate` tool (`langchain/tools/tools.py` lines 210-221).  The
source first checks `all(c in allowed for c in expression)` and returns
`"Invalid expression"` otherwise; only then does it call the external
Python `eval` builtin, returning `str(result)` on success and
`"Calc error: <exception>"` if `eval` raises.  `eval` and `str` are
external to the repository and are parameters `ev` and `toStr` here; the
theorems below quantify over them. -/
def calculate {α : Type} (toStr : α → String)
    (ev : String → Except String α) (expression : String) : String :=
  if expression.toList.all (fun c => allowedCalcChars.contains c) then
    match ev expression with
    | Except.ok result => toStr result
    | Except.error e => "Calc error: " ++ e
  else "Invalid expression"

/-- Token of the restricted arithmetic grammar. -/
inductive Tok where
  | num (n : Int)
  | add
  | sub
  | mul
  | lp
  | rp
  deriving DecidableEq

/-- Tokenizer for the arithmetic grammar: digits (grouped into numbers),
the operators `+`, `-`, `*`, parentheses and spaces; any other character
fails. -/
def tokenizeAux : List Char → Option Nat → List Tok → Option (List Tok)
  | [], cur, acc =>
    some ((match cur with
           | some n => Tok.num (Int.ofNat n) :: acc
           | none => acc).reverse)
  | c :: cs, cur, acc =>
    if c.isDigit then
      tokenizeAux cs (some ((cur.getD 0) * 10 + (c.toNat - 48))) acc
    else
      let acc2 := match cur with
        | some n => Tok.num (Int.ofNat n) :: acc
        | none => acc
      if c = ' ' then tokenizeAux cs none acc2
      else if c = '+' then tokenizeAux cs none (Tok.add :: acc2)
      else if c = '-' then tokenizeAux cs none (Tok.sub :: acc2)
      else if c = '*' then tokenizeAux cs none (Tok.mul :: acc2)
      else if c = '(' then tokenizeAux cs none (Tok.lp :: acc2)
      else if c = ')' then tokenizeAux cs none (Tok.rp :: acc2)
      else none

/-- Nonterminals of the recursive-descent evaluator; the tail forms carry
the left-associated accumulator. -/
inductive NT where
  | expr
  | exprTail (acc : Int)
  | term
  | termTail (acc : Int)
  | factor

/-- Fuel-indexed recursive-descent evaluation over the token list:
`expr := term ((+|-) term)*`, `term := factor (* factor)*`,
`factor := number | ( expr ) | - factor`. -/
def parseNT : Nat → NT → List Tok → Option (Int × List Tok)
  | 0, _, _ => none
  | f + 1, NT.expr, ts =>
    (parseNT f NT.term ts).bind (fun p => parseNT f (NT.exprTail p.1) p.2)
  | f + 1, NT.exprTail v, Tok.add :: ts =>
    (parseNT f NT.term ts).bind (fun p => parseNT f (NT.exprTail (v + p.1)) p.2)
  | f + 1, NT.exprTail v, Tok.sub :: ts =>
    (parseNT f NT.term ts).bind (fun p => parseNT f (NT.exprTail (v - p.1)) p.2)
  | _ + 1, NT.exprTail v, ts => some (v, ts)
  | f + 1, NT.term, ts =>
    (parseNT f NT.factor ts).bind (fun p => parseNT f (NT.termTail p.1) p.2)
  | f + 1, NT.termTail v, Tok.mul :: ts =>
    (parseNT f NT.factor ts).bind (fun p => parseNT f (NT.termTail (v * p.1)) p.2)
  | _ + 1, NT.termTail v, ts => some (v, ts)
  | _ + 1, NT.factor, Tok.num n :: ts => some (n, ts)
  | f + 1, NT.factor, Tok.lp :: ts =>
    match parseNT f NT.expr ts with
    | some (v, Tok.rp :: rest) => some (v, rest)
    | _ => none
  | f + 1, NT.factor, Tok.sub :: ts =>
    (parseNT f NT.factor ts).bind (fun p => some (-p.1, p.2))
  | _ + 1, NT.factor, _ => none

/-- A concrete instantiation of the `eval` parameter of `calculate`: an
evaluator of integer arithmetic expressions over `+`, `-`, `*` and
parentheses.  It models the Python `eval` builtin on the integer fragment
of the allowed grammar (float-producing constructs such as `/` and `.`
are outside this model); it is used only to evaluate concrete integer
examples such as `2+2`. -/
def evalArithInt (s : String) : Except String Int :=
  match tokenizeAux s.toList none [] with
  | none => Except.error "invalid token"
  | some ts =>
    match parseNT (16 * (ts.length + 1)) NT.expr ts with
    | some (v, []) => Except.ok v
    | some (_, _ :: _) => Except.error "unexpected token"
    | none => Except.error "parse error"

/-- C3: the `calculate` tool first filters characters and only then
evaluates.  (1) If every character of the input is in the allowed set and
the evaluator succeeds with value `v`, the result is `str(v)`.  (2) If some
character is outside the allowed set, the result is the fixed string
`"Invalid expression"` for every evaluator and every value type — the
evaluator is never consulted, so such inputs are never executed.  (3)
Concretely, `calculate "2+2" = "4"` with the arithmetic evaluator.  (4)
`calculate "import os" = "Invalid expression"` for every evaluator. -/
theorem calculate_c3 :
    (∀ (α : Type) (toStr : α → String) (ev : String → Except String α)
        (expr : String) (v : α),
        expr.toList.all (fun c => allowedCalcChars.contains c) = true →
        ev expr = Except.ok v →
        calculate toStr ev expr = toStr v)
    ∧ (∀ (α β : Type) (toStr : α → String) (toStr2 : β → String)
        (ev : String → Except String α) (ev2 : String → Except String β)
        (expr : String),
        expr.toList.all (fun c => allowedCalcChars.contains c) = false →
        calculate toStr ev expr = "Invalid expression"
        ∧ calculate toStr2 ev2 expr = "Invalid expression")
    ∧ calculate toString evalArithInt "2+2" = "4"
    ∧ (∀ (α : Type) (toStr : α → String) (ev : String → Except String α),
        calculate toStr ev "import os" = "Invalid expression") := by
  refine ⟨?_, ?_, ?_, ?_⟩
  · intro α toStr ev expr v h hv
    unfold calculate
    rw [if_pos h, hv]
  · intro α β toStr toStr2 ev ev2 expr h
    have h2 : ¬ ((expr.toList.all fun c => allowedCalcChars.contains c) = true) := by
      simp only [h]
      exact Bool.false_ne_true
    constructor <;> (unfold calculate; rw [if_neg h2])
  · rfl
  · intro α toStr ev
    rfl

/-- C3 witness: a registered-set input that evaluates, and an input with a
letter outside the allowed set that is rejected. -/
theorem calculate_c3_witness :
    calculate toString evalArithInt "2+3" = toString (5 : Int)
    ∧ calculate toString evalArithInt "2a" = "Invalid expression" :=
  ⟨calculate_c3.1 Int toString evalArithInt "2+3" 5 (by decide) (by rfl),
   (calculate_c3.2.1 Int Int toString toString evalArithInt evalArithInt
      "2a" (by decide)).1⟩

/-- A Python exception as observed by the save block of
`generate_response`: the source distinguishes `ConnectionError` from every
other `Exception`. -/
inductive PyErr where
  | connectionError (msg : String)
  | otherError (msg : String)
  deriving DecidableEq

/-- The `save_status` dict built by `generate_response`
(`langchain/agent.py` lines 181-206). -/
structure SaveStatus where
  saved : Bool
  error : Option String
  deriving DecidableEq

/-- The value returned by `generate_response`: either the structured dict
`{content, save_status}` of the normal path, or — when the outer
`except Exception` fires — the plain string `"Error: <message>"`. -/
inductive GenResult where
  | withStatus (content : String) (save_status : SaveStatus)
  | plain (s : String)
  deriving DecidableEq

/-- The conversation service `generate_response` (`langchain/agent.py`
lines 126-215).  Collaborators are parameters: `runAgent` is
`get_agent_executor().invoke` returning the output string or raising;
`saveAttempt` is the `conversations.insert_one` call, returning the truth
value of `result.inserted_id` or raising; `historyCtx` is the context
string assembled from `db_get_history` when it succeeds and yields
history (the `db_init` call and a failed history fetch are swallowed by
bare `except: pass` and leave no trace in the result).  The save block
catches `ConnectionError` and general `Exception` separately; the outer
`except Exception` converts any exception from the agent into the plain
string `"Error: <message>"`. -/
def generate_response (runAgent : String → Except String String)
    (saveAttempt : Except PyErr Bool) (historyCtx : Option String)
    (prompt : String) : GenResult :=
  let enhanced_prompt :=
    match historyCtx with
    | some context => context ++ "\n\nCurrent question: " ++ prompt
    | none => prompt
  match runAgent enhanced_prompt with
  | Except.error e => GenResult.plain ("Error: " ++ e)
  | Except.ok response =>
    let save_status : SaveStatus :=
      match saveAttempt with
      | Except.ok true => ⟨true, none⟩
      | Except.ok false => ⟨false, some "Insert failed"⟩
      | Except.error (PyErr.connectionError e) =>
        ⟨false, some ("MongoDB connection error: " ++ e)⟩
      | Except.error (PyErr.otherError e) =>
        ⟨false, some ("Database error: " ++ e)⟩
    GenResult.withStatus response save_status

/-- The JSON object returned by the `/generate` route handler
(`langchain/main.py` lines 62-69). -/
structure HTTPResponse where
  response : String
  user_id : String
  status : String
  saved_to_memory : Bool
  save_error : Option String
  message : String
  deriving DecidableEq

/-- How a Python f-string renders an optional value: `None` becomes the
text `"None"`. -/
def renderOpt : Option String → String
  | some e => e
  | none => "None"

/-- The `/generate` GET route handler `generate_get` (`langchain/main.py`
lines 36-71).  If `generate_response` returns the dict form, its content
and save status are unpacked; otherwise the returned string itself becomes
the response text and the save status falls back to
`{saved: False, error: "Status not available"}`.  Both branches set
`status` to `"success"`; the `except` clause raising `HTTPException(500)`
is unreachable here because `generate_response` catches every exception
and the response assembly cannot raise. -/
def generate_get (runAgent : String → Except String String)
    (saveAttempt : Except PyErr Bool) (historyCtx : Option String)
    (prompt user_id : String) : HTTPResponse :=
  match generate_response runAgent saveAttempt historyCtx prompt with
  | GenResult.withStatus content ss =>
    ⟨content, user_id, "success", ss.saved, ss.error,
     if ss.saved then "Conversation saved to MongoDB"
     else "Save failed: " ++ renderOpt ss.error⟩
  | GenResult.plain s =>
    ⟨s, user_id, "success", false, some "Status not available",
     "Save failed: Status not available"⟩

/-- The completion-client failure used as the C4 counterexample input: the
agent run raises with this message. -/
def c4FailingAgent : String → Except String String :=
  fun _ => Except.error "completion service unreachable"

/-- C4 counterexample: when the completion client fails during a
tool-augmented request, the `/generate` caller receives `status`
`"success"` — not a failure status — with the text
`"Error: completion service unreachable"` in the `response` field.  The
failure is therefore not surfaced as an error result distinct from a
successful answer: the response object has the same success status as a
real answer. -/
theorem generate_c4_counterexample :
    (generate_get c4FailingAgent (Except.ok true) none "hi" "u1").status =
      "success"
    ∧ (generate_get c4FailingAgent (Except.ok true) none "hi" "u1").response =
        "Error: completion service unreachable" :=
  ⟨rfl, rfl⟩

/-- C4 amended: a completion-client failure is not silently swallowed —
it is caught by the conversation service and converted into the answer
string `"Error: <message>"` — but the `/generate` caller receives it with
`status` `"success"`, that error text in the `response` field, and the
fallback persistence status (`saved_to_memory` false, `save_error`
`"Status not available"`).  It is distinguishable from a successful
answer only by the response text and the fallback save status, not by a
failure status. -/
theorem generate_c4_amended (e : String) (saveAttempt : Except PyErr Bool)
    (historyCtx : Option String) (prompt uid : String) :
    generate_get (fun _ => Except.error e) saveAttempt historyCtx prompt uid =
      ⟨"Error: " ++ e, uid, "success", false, some "Status not available",
       "Save failed: Status not available"⟩ := by
  cases historyCtx <;> rfl

/-- C5: if the conversation store is unavailable during a `/generate`
request (the insert raises `ConnectionError` and no history context is
available), the request still returns the agent answer unchanged with
`status` `"success"`, while `saved_to_memory` is false and `save_error`
carries the connection-error detail; the answer text equals the one
returned when the save succeeds. -/
theorem generate_c5 (answer m prompt uid : String) :
    (generate_get (fun _ => Except.ok answer)
        (Except.error (PyErr.connectionError m)) none prompt uid).response =
      answer
    ∧ (generate_get (fun _ => Except.ok answer)
        (Except.error (PyErr.connectionError m)) none prompt uid).status =
        "success"
    ∧ (generate_get (fun _ => Except.ok answer)
        (Except.error (PyErr.connectionError m)) none prompt uid).saved_to_memory =
        false
    ∧ (generate_get (fun _ => Except.ok answer)
        (Except.error (PyErr.connectionError m)) none prompt uid).save_error =
        some ("MongoDB connection error: " ++ m)
    ∧ (generate_get (fun _ => Except.ok answer)
        (Except.error (PyErr.connectionError m)) none prompt uid).response =
      (generate_get (fun _ => Except.ok answer)
        (Except.ok true) none prompt uid).response :=
  ⟨rfl, rfl, rfl, rfl, rfl⟩

/-- The terminal completion line of the SSE stream
(`streamingChatbot/backend/agent/agent.py` line 50). -/
def doneLine : String := "data: [DONE]\n\n"

/-- The terminal error line of the SSE stream (line 53). -/
def errorLine (e : String) : String := "data: [ERROR] " ++ e ++ "\n\n"

/-- One fragment line of the SSE stream (line 47). -/
def tokenLine (t : String) : String := "data: " ++ t ++ "\n\n"

/-- The token carried by one streamed chunk, if any.  A chunk is modelled
by its `delta.content`: `none` covers a chunk with no choices or a null
content, and the source guard `if chunk.choices and
chunk.choices[0].delta.content` also skips an empty string, both being
falsy in Python. -/
def chunkToken : Option String → Option String
  | some s => if s = "" then none else some s
  | none => none

/-- The `for chunk in response` loop of the `chatbot` generator
(`streamingChatbot/backend/agent/agent.py` lines 38-53), inside its
`try`.  `disc k` is the value of `await request.is_disconnected()` at the
start of the loop body for the k-th chunk; on disconnection the loop
breaks and the code falls through to `yield "data: [DONE]"`.  `iterErr`
models an exception raised by the chunk iterator after the listed chunks:
the `except` clause converts it into a terminal `[ERROR]` line instead of
the `[DONE]` line. -/
def streamLoop (disc : Nat → Bool) :
    List (Option String) → Option String → List String
  | [], iterErr =>
    match iterErr with
    | some e => [errorLine e]
    | none => [doneLine]
  | c :: cs, iterErr =>
    if disc 0 then [doneLine]
    else
      match chunkToken c with
      | some t => tokenLine t :: streamLoop (fun k => disc (k + 1)) cs iterErr
      | none => streamLoop (fun k => disc (k + 1)) cs iterErr

/-- The async generator `chatbot`
(`streamingChatbot/backend/agent/agent.py` lines 9-53).  `create` models
the `openai.chat.completions.create(stream=True, ...)` call, which sits
before the `try` block: on failure the exception propagates out of the
generator (`Except.error`) and no SSE line is emitted; on success it
yields the chunk sequence, possibly ending in an iterator exception. -/
def chatbot (create : Except String (List (Option String) × Option String))
    (disc : Nat → Bool) : Except String (List String) :=
  match create with
  | Except.error e => Except.error e
  | Except.ok (chunks, iterErr) => Except.ok (streamLoop disc chunks iterErr)

/-- The fragment lines produced by a fully consumed chunk sequence. -/
def tokenLines (chunks : List (Option String)) : List String :=
  chunks.filterMap (fun c => (chunkToken c).map tokenLine)

/-- A client that never disconnects. -/
def noDisc : Nat → Bool := fun _ => false

/-- A client whose disconnection is observed from the d-th loop iteration
onwards. -/
def discAt (d : Nat) : Nat → Bool := fun k => decide (d ≤ k)

lemma streamLoop_never_disc :
    ∀ (chunks : List (Option String)) (iterErr : Option String)
      (disc : Nat → Bool), (∀ k, disc k = false) →
      streamLoop disc chunks iterErr =
        tokenLines chunks ++
          [match iterErr with
           | some e => errorLine e
           | none => doneLine] := by
  intro chunks
  induction chunks with
  | nil =>
    intro iterErr disc _
    cases iterErr <;> simp [streamLoop, tokenLines]
  | cons c cs ih =>
    intro iterErr disc h
    have h0 : disc 0 = false := h 0
    have hrec := ih iterErr (fun k => disc (k + 1)) (fun k => h (k + 1))
    cases c with
    | none => simp [streamLoop, h0, chunkToken, tokenLines, hrec]
    | some s =>
      by_cases hs : s = ""
      · simp [streamLoop, h0, chunkToken, hs, tokenLines, hrec]
      · simp [streamLoop, h0, chunkToken, hs, tokenLines, hrec]

lemma streamLoop_disc_tail :
    ∀ (chunks : List (Option String)) (iterErr : Option String)
      (d : Nat) (disc : Nat → Bool),
      (∀ k, disc k = decide (d ≤ k)) → d < chunks.length →
      streamLoop disc chunks iterErr =
        tokenLines (chunks.take d) ++ [doneLine] := by
  intro chunks
  induction chunks with
  | nil => intro iterErr d disc _ hd; exact absurd hd (Nat.not_lt_zero d)
  | cons c cs ih =>
    intro iterErr d disc hdisc hd
    cases d with
    | zero =>
      have h0 : disc 0 = true := by rw [hdisc 0]; decide
      simp [streamLoop, h0, tokenLines]
    | succ e =>
      have h0 : disc 0 = false := by
        rw [hdisc 0]
        simp
      have hrec := ih iterErr e (fun k => disc (k + 1)) (fun k => by
        show disc (k + 1) = decide (e ≤ k)
        rw [hdisc (k + 1)]
        simp [Nat.succ_le_succ_iff]) (Nat.lt_of_succ_lt_succ hd)
      cases c with
      | none => simp [streamLoop, h0, chunkToken, tokenLines, hrec]
      | some s =>
        by_cases hs : s = ""
        · simp [streamLoop, h0, chunkToken, hs, tokenLines, hrec]
        · simp [streamLoop, h0, chunkToken, hs, tokenLines, hrec]

/-- C7 counterexample: the `openai.chat.completions.create(stream=True,...)`
call sits before the `try` block of the generator, so when it fails the
exception propagates out of the generator and no SSE line at all is
emitted — in particular no terminal `data: [ERROR]` line.  This concrete
internal failure therefore violates the claim that on any internal
failure a terminal `[ERROR]` event line is emitted. -/
theorem chatbot_c7_counterexample :
    chatbot (Except.error "auth failure") noDisc =
      Except.error "auth failure" := rfl

/-- C7 amended: when the completion request succeeds, the emitted stream
is one `data: <token>` line per fragment followed by the terminal
`data: [DONE]` line; a failure raised while iterating the chunk stream
yields the fragment lines emitted so far followed by a terminal
`data: [ERROR] <message>` line instead of `[DONE]`, and the stream still
ends.  A failure of the completion request itself, which is outside the
`try` block, propagates out of the generator with no line emitted. -/
theorem chatbot_c7_amended :
    (∀ chunks : List (Option String),
      chatbot (Except.ok (chunks, none)) noDisc =
        Except.ok (tokenLines chunks ++ [doneLine]))
    ∧ (∀ (chunks : List (Option String)) (e : String),
      chatbot (Except.ok (chunks, some e)) noDisc =
        Except.ok (tokenLines chunks ++ [errorLine e]))
    ∧ (∀ (e : String) (disc : Nat → Bool),
      chatbot (Except.error e) disc = Except.error e) := by
  refine ⟨?_, ?_, ?_⟩
  · intro chunks
    simp only [chatbot]
    rw [streamLoop_never_disc chunks none noDisc (fun _ => rfl)]
  · intro chunks e
    simp only [chatbot]
    rw [streamLoop_never_disc chunks (some e) noDisc (fun _ => rfl)]
  · intro e disc
    rfl

/-- The chunk stream used in the C8 counterexample: three fragments. -/
def c8Chunks : List (Option String) := [some "a", some "b", some "c"]

/-- C8 counterexample: with the client disconnection observed from the
second loop iteration onwards — that is, after exactly one fragment — the
generator stops yielding fragments but still emits one further `data:`
line, the terminal `data: [DONE]`, before ending.  The claim that no
further `data:` line of any kind is emitted past the disconnection point
is therefore false: the emitted stream is
`["data: a", "data: [DONE]"]`. -/
theorem chatbot_c8_counterexample :
    chatbot (Except.ok (c8Chunks, none)) (discAt 1) =
      Except.ok [tokenLine "a", doneLine]
    ∧ (tokenLine "a").take 5 = "data:"
    ∧ doneLine.take 5 = "data:" := by
  exact ⟨rfl, rfl, rfl⟩

/-- C8 amended: once the client disconnection is observed at the start of
loop iteration `d` (with chunks still pending), the generator yields no
fragment line for any chunk from that point on — production stops at the
very next disconnection check — and the only further output is the single
terminal `data: [DONE]` line, after which the stream ends; this holds
whether or not the iterator would have failed later. -/
theorem chatbot_c8_amended (chunks : List (Option String))
    (iterErr : Option String) (d : Nat) (h : d < chunks.length) :
    chatbot (Except.ok (chunks, iterErr)) (discAt d) =
      Except.ok (tokenLines (chunks.take d) ++ [doneLine]) := by
  simp only [chatbot]
  rw [streamLoop_disc_tail chunks iterErr d (discAt d) (fun _ => rfl) h]

/-- C8 amended witness: the three-fragment stream with disconnection
after one fragment. -/
theorem chatbot_c8_amended_witness :
    chatbot (Except.ok (c8Chunks, none)) (discAt 1) =
      Except.ok (tokenLines (c8Chunks.take 1) ++ [doneLine]) :=
  chatbot_c8_amended c8Chunks none 1 (by decide)

/-- A document of the `user_preferences` collection as written by
`db_save_preference` (`langchain/tools/tools.py` lines 145-150): the
fields of `preference_doc`, with both timestamp fields kept as opaque
strings. -/
structure PrefDoc where
  user_id : String
  preferences : String
  updated_at : String
  last_updated : String
  deriving DecidableEq

/-- MongoDB `update_one({"user_id": u}, {"$set": doc}, upsert=True)` on
the preferences collection: the first document matching the filter has
the fields of `doc` set (here a full replacement, since `doc` carries
every field such documents have), and if none matches, `doc` is
inserted. -/
def update_one_upsert : List PrefDoc → PrefDoc → List PrefDoc
  | [], d => [d]
  | x :: xs, d =>
    if x.user_id = d.user_id then d :: xs else x :: update_one_upsert xs d

/-- The `db_save_preference` tool (`langchain/tools/tools.py` lines
140-158) on an available store: builds `preference_doc` from the user id,
the payload and the two current-time values, upserts it keyed by
`user_id`, and returns `"Saved"`.  (The `except` branch returning
`"Not saved: ..."` concerns an unavailable store and leaves the store
unchanged; C9 is about the upsert semantics on the stored data.) -/
def db_save_preference (store : List PrefDoc)
    (user_id preferences now_iso now : String) : List PrefDoc × String :=
  (update_one_upsert store ⟨user_id, preferences, now_iso, now⟩, "Saved")

/-- The preference records of one user: the documents matching the
`user_id` filter. -/
def prefsFor (store : List PrefDoc) (u : String) : List PrefDoc :=
  store.filter (fun d => d.user_id == u)

lemma prefsFor_upsert_self (d : PrefDoc) :
    ∀ store : List PrefDoc, (prefsFor store d.user_id).length ≤ 1 →
      prefsFor (update_one_upsert store d) d.user_id = [d] := by
  intro store
  induction store with
  | nil =>
    intro _
    simp [update_one_upsert, prefsFor]
  | cons x xs ih =>
    intro h
    by_cases hx : x.user_id = d.user_id
    · have hxs : prefsFor xs d.user_id = [] := by
        have : (prefsFor (x :: xs) d.user_id).length ≤ 1 := h
        rw [prefsFor, List.filter_cons_of_pos (by simp [hx])] at this
        simp only [List.length_cons, Nat.succ_le_succ_iff, Nat.le_zero] at this
        exact List.length_eq_zero.mp this
      rw [update_one_upsert, if_pos hx, prefsFor,
        List.filter_cons_of_pos (by simp)]
      rw [prefsFor] at hxs
      rw [hxs]
    · have h2 : (prefsFor xs d.user_id).length ≤ 1 := by
        rw [prefsFor, List.filter_cons_of_neg (by simp [hx])] at h
        exact h
      rw [update_one_upsert, if_neg hx, prefsFor,
        List.filter_cons_of_neg (by simp [hx])]
      exact ih h2

lemma prefsFor_upsert_other (d : PrefDoc) (v : String) (hv : v ≠ d.user_id) :
    ∀ store : List PrefDoc,
      prefsFor (update_one_upsert store d) v = prefsFor store v := by
  have hdv : ¬ d.user_id = v := fun h => hv h.symm
  intro store
  induction store with
  | nil =>
    simp [update_one_upsert, prefsFor, hdv]
  | cons x xs ih =>
    simp only [prefsFor] at ih ⊢
    by_cases hx : x.user_id = d.user_id
    · rw [update_one_upsert, if_pos hx]
      simp [List.filter_cons, hdv, hx]
    · rw [update_one_upsert, if_neg hx]
      simp only [List.filter_cons, ih]

/-- C9: starting from any preferences store with at most one record per
user (the invariant the unique index on `user_id` enforces), an upsert
with payload `P1` followed by an upsert for the same user with payload
`P2` leaves exactly one preference record for that user, carrying `P2`
and the second timestamps; and the at-most-one-record-per-user invariant
holds for every user afterwards. -/
theorem prefs_c9 (store : List PrefDoc) (u P1 P2 t1a t1b t2a t2b : String)
    (hinv : ∀ v, (prefsFor store v).length ≤ 1) :
    prefsFor (db_save_preference
        (db_save_preference store u P1 t1a t1b).1 u P2 t2a t2b).1 u =
      [⟨u, P2, t2a, t2b⟩]
    ∧ ∀ v, (prefsFor (db_save_preference
        (db_save_preference store u P1 t1a t1b).1 u P2 t2a t2b).1 v).length ≤ 1 := by
  dsimp only [db_save_preference]
  have h1 : prefsFor (update_one_upsert store ⟨u, P1, t1a, t1b⟩) u =
      [⟨u, P1, t1a, t1b⟩] :=
    prefsFor_upsert_self ⟨u, P1, t1a, t1b⟩ store (hinv u)
  have h2 : prefsFor (update_one_upsert
      (update_one_upsert store ⟨u, P1, t1a, t1b⟩) ⟨u, P2, t2a, t2b⟩) u =
      [⟨u, P2, t2a, t2b⟩] := by
    apply prefsFor_upsert_self ⟨u, P2, t2a, t2b⟩
    rw [h1]
    simp
  refine ⟨h2, ?_⟩
  intro v
  by_cases hv : v = u
  · rw [hv, h2]
    simp
  · rw [prefsFor_upsert_other ⟨u, P2, t2a, t2b⟩ v hv,
      prefsFor_upsert_other ⟨u, P1, t1a, t1b⟩ v hv]
    exact hinv v

/-- C9 witness: two upserts for the same user on the empty store leave
one record, carrying the second payload. -/
theorem prefs_c9_witness :
    prefsFor (db_save_preference
        (db_save_preference [] "u1" "dark" "t1" "t1b").1
        "u1" "light" "t2" "t2b").1 "u1" =
      [⟨"u1", "light", "t2", "t2b"⟩] :=
  (prefs_c9 [] "u1" "dark" "light" "t1" "t1b" "t2" "t2b"
    (fun v => by simp [prefsFor])).1

/-- The `get_time` tool (`langchain/tools/tools.py` lines 224-232): `now`
is the server-local `datetime.now().strftime(...)` value; the source
returns the f-string `"<time_str> <timezone>"` when the `timezone`
argument is truthy (present and nonempty) and `time_str` alone
otherwise.  No time computation involves the timezone argument. -/
def get_time (now : String) (timezone : Option String) : String :=
  match timezone with
  | some tz => if tz = "" then now else now ++ " " ++ tz
  | none => now

/-- C10: the timestamp returned by `get_time` is the server-local current
time regardless of the timezone argument: with no timezone (or the falsy
empty string) the local value is returned unchanged, and a nonempty
timezone is merely appended after a space to the same unchanged local
value — no conversion touches it. -/
theorem get_time_c10 (now tz : String) (h : tz ≠ "") :
    get_time now none = now
    ∧ get_time now (some tz) = now ++ " " ++ tz
    ∧ get_time now (some "") = now := by
  refine ⟨rfl, ?_, rfl⟩
  rw [get_time, if_neg h]

/-- C10 witness: a concrete local time with the timezone argument
supplied. -/
theorem get_time_c10_witness :
    get_time "2026-10-12 09:00:00" none = "2026-10-12 09:00:00"
    ∧ get_time "2026-10-12 09:00:00" (some "UTC") =
        "2026-10-12 09:00:00" ++ " " ++ "UTC"
    ∧ get_time "2026-10-12 09:00:00" (some "") = "2026-10-12 09:00:00" :=
  get_time_c10 "2026-10-12 09:00:00" "UTC" (by decide)
